import Mathlib

/-!
Verification of the decision core of the Autobob2 trading agent
(`src/core/risk_manager.rs` and `src/core/discovery_engine.rs`).

The Rust code is shallowly embedded: `f64` amounts and ratios become `ℚ`,
`DateTime<Utc>` timestamps become `ℚ` (minutes since an arbitrary epoch),
`chrono::Duration` becomes a record carrying its `num_minutes` value,
`HashMap` becomes an association list, and every method that reads the
ambient clock (`Utc::now()`) takes the current time as an explicit
parameter.  Methods that mutate the `RiskManager` through interior
mutability are modelled as state-to-state functions; methods that both
return a value and mutate state return a pair.
-/

namespace risk_manager

/-- Position record (src/core/risk_manager.rs lines 36-44). -/
structure Position where
  pattern_hash : String
  size : ℚ
  entry_price : ℚ
  entry_time : ℚ
  stop_loss : ℚ
  take_profit : ℚ
deriving DecidableEq, Repr

/-- Pattern record of the risk manager module (src/core/risk_manager.rs lines 345-352). -/
structure Pattern where
  hash : String
  win_rate : ℚ
  avg_win_amount : ℚ
  avg_loss_amount : ℚ
  sharpe_ratio : ℚ
deriving DecidableEq, Repr

/-- State of a `RiskManager` (src/core/risk_manager.rs lines 6-34).
Atomics and mutex-protected cells become plain fields; loss windows are
lists of `(timestamp, loss_amount)` pairs; the two hash maps become
association lists. -/
structure RiskManager where
  max_position_size_pct : ℚ
  max_daily_drawdown_pct : ℚ
  max_concurrent_positions : ℕ
  min_win_rate : ℚ
  kelly_fraction : ℚ
  emergency_stop : Bool
  circuit_breaker_15min : Bool
  circuit_breaker_1hr : Bool
  starting_capital : ℚ
  current_capital : ℚ
  daily_high : ℚ
  losses_15min : List (ℚ × ℚ)
  losses_1hr : List (ℚ × ℚ)
  losses_24hr : List (ℚ × ℚ)
  open_positions : List (String × Position)
  position_correlations : List ((String × String) × ℚ)
deriving DecidableEq, Repr

/-- Constructor `RiskManager::new` (src/core/risk_manager.rs lines 47-70). -/
def RiskManager.new (starting_capital : ℚ) : RiskManager where
  max_position_size_pct := 1/4
  max_daily_drawdown_pct := 3/10
  max_concurrent_positions := 10
  min_win_rate := 11/20
  kelly_fraction := 1/4
  emergency_stop := false
  circuit_breaker_15min := false
  circuit_breaker_1hr := false
  starting_capital := starting_capital
  current_capital := starting_capital
  daily_high := starting_capital
  losses_15min := []
  losses_1hr := []
  losses_24hr := []
  open_positions := []
  position_correlations := []

/-- Model of `chrono::Duration`, carrying the value its `num_minutes()`
method reports (time is measured in minutes throughout the embedding). -/
structure Duration where
  num_minutes : ℚ
deriving DecidableEq, Repr

/-- Model of `chrono::Duration::minutes`. -/
def Duration.minutes (n : ℚ) : Duration := ⟨n⟩

/-- Model of `chrono::Duration::hours`. -/
def Duration.hours (n : ℚ) : Duration := ⟨n * 60⟩

/-- Method `calculate_position_size` (src/core/risk_manager.rs lines 72-112). -/
def calculate_position_size (rm : RiskManager) (pattern : Pattern)
    (available_capital : ℚ) : ℚ :=
  if pattern.win_rate < rm.min_win_rate then 0
  else
    let win_prob := pattern.win_rate
    let loss_prob := 1 - win_prob
    let avg_win := pattern.avg_win_amount
    let avg_loss := abs pattern.avg_loss_amount
    if avg_loss = 0 ∨ avg_win = 0 then 0
    else
      let b := avg_win / avg_loss
      let kelly_pct := (win_prob * b - loss_prob) / b
      let safe_kelly := kelly_pct * rm.kelly_fraction
      let max_position := available_capital * rm.max_position_size_pct
      let kelly_position := available_capital * (max safe_kelly 0)
      let position_size := min kelly_position max_position
      if position_size < 5 then 0 else position_size

/-- The raw (pre-safety-factor) Kelly fraction computed on lines 93-94
of src/core/risk_manager.rs, as a standalone quantity. -/
def kelly_pct_of (pattern : Pattern) : ℚ :=
  let b := pattern.avg_win_amount / abs pattern.avg_loss_amount
  (pattern.win_rate * b - (1 - pattern.win_rate)) / b

/-- Numerator of `calculate_period_loss`: the match on `period.num_minutes()`
selecting a window (lines 165-169) and the filtered sum of recent losses
(lines 171-175). -/
def period_losses_sum (rm : RiskManager) (period : Duration) (now : ℚ) : ℚ :=
  let cutoff := now - period.num_minutes
  let losses :=
    if period.num_minutes = 15 then rm.losses_15min
    else if period.num_minutes = 60 then rm.losses_1hr
    else rm.losses_24hr
  (((losses.filter (fun tl => cutoff < tl.1)).map (fun tl => tl.2))).sum

/-- Method `calculate_period_loss` (src/core/risk_manager.rs lines 161-179):
sum of in-window losses divided by `current_capital`, with no zero guard on
the divisor. -/
def calculate_period_loss (rm : RiskManager) (period : Duration) (now : ℚ) : ℚ :=
  period_losses_sum rm period now / rm.current_capital

/-- The drawdown computed on line 136 of src/core/risk_manager.rs:
`(daily_high - current) / daily_high`, with no zero guard on the divisor. -/
def drawdown (rm : RiskManager) : ℚ :=
  (rm.daily_high - rm.current_capital) / rm.daily_high

/-- Method `close_all_positions` (src/core/risk_manager.rs lines 322-331).
It only logs each open position as closed and removes nothing; the model
returns the list of `(hash, size)` reports it prints. -/
def close_all_positions (rm : RiskManager) : List (String × ℚ) :=
  rm.open_positions.map (fun kv => (kv.1, kv.2.size))

/-- Method `trigger_emergency_stop` (src/core/risk_manager.rs lines 181-195).
Sets the emergency flag; `close_all_positions`, `save_emergency_state` and
`send_emergency_alerts` only log, so the rest of the state is unchanged. -/
def trigger_emergency_stop (rm : RiskManager) : RiskManager :=
  { rm with emergency_stop := true }

/-- Method `trigger_circuit_breaker_15min` (src/core/risk_manager.rs lines
197-206).  Sets the flag; the spawned cooldown thread sleeps one hour and
then does nothing (its body after the sleep is empty), so no reset is
modelled because none exists in the code. -/
def trigger_circuit_breaker_15min (rm : RiskManager) : RiskManager :=
  { rm with circuit_breaker_15min := true }

/-- Method `trigger_circuit_breaker_1hr` (src/core/risk_manager.rs lines
208-217).  Sets the flag; the spawned six-hour cooldown thread likewise
does nothing after sleeping. -/
def trigger_circuit_breaker_1hr (rm : RiskManager) : RiskManager :=
  { rm with circuit_breaker_1hr := true }

/-- Method `check_risk_limits` (src/core/risk_manager.rs lines 114-159).
Returns the Bool result together with the possibly-updated state (the
trigger methods fire as side effects in the source). -/
def check_risk_limits (rm : RiskManager) (now : ℚ) : Bool × RiskManager :=
  if rm.emergency_stop then (false, rm)
  else if rm.circuit_breaker_15min then (false, rm)
  else if rm.circuit_breaker_1hr then (false, rm)
  else if drawdown rm > rm.max_daily_drawdown_pct then
    (false, trigger_emergency_stop rm)
  else if calculate_period_loss rm (Duration.minutes 15) now > 1/10 then
    (false, trigger_circuit_breaker_15min rm)
  else if calculate_period_loss rm (Duration.hours 1) now > 2/10 then
    (false, trigger_circuit_breaker_1hr rm)
  else (true, rm)

/-- Lookup in the correlation map, modelling `HashMap::get` on the
association list. -/
def corr_lookup (m : List ((String × String) × ℚ)) (k : String × String) :
    Option ℚ :=
  (m.find? (fun e => e.1 == k)).map Prod.snd

/-- Method `calculate_portfolio_correlation` (src/core/risk_manager.rs lines
258-279): 0 when there are no open positions, otherwise the fold of
`max` over the absolute values of the correlations found for each open
position key (either key order), starting from 0. -/
def calculate_portfolio_correlation (rm : RiskManager) (new_pattern : String) : ℚ :=
  if rm.open_positions.isEmpty then 0
  else
    ((rm.open_positions.map Prod.fst).filterMap (fun existing =>
        (corr_lookup rm.position_correlations (existing, new_pattern)).orElse
          (fun _ => corr_lookup rm.position_correlations (new_pattern, existing)))).foldl
      (fun m corr => max m (abs corr)) 0

/-- Method `approve_order` (src/core/risk_manager.rs lines 219-256). -/
def approve_order (rm : RiskManager) (pattern_hash : String) (size : ℚ)
    (now : ℚ) : Bool × RiskManager :=
  if rm.emergency_stop then (false, rm)
  else
    let res := check_risk_limits rm now
    if !res.1 then (false, res.2)
    else
      let rm1 := res.2
      let pattern_positions :=
        (rm1.open_positions.filter (fun kv => kv.2.pattern_hash == pattern_hash)).length
      if pattern_positions ≥ rm1.max_concurrent_positions then (false, rm1)
      else if calculate_portfolio_correlation rm1 pattern_hash > 7/10 then (false, rm1)
      else if size > rm1.current_capital * (1/2) then (false, rm1)
      else (true, rm1)

/-- Method `clean_old_losses` (src/core/risk_manager.rs lines 306-320):
retain only entries newer than each window's horizon. -/
def clean_old_losses (rm : RiskManager) (now : ℚ) : RiskManager :=
  { rm with
      losses_15min := rm.losses_15min.filter (fun tl => now - 15 < tl.1),
      losses_1hr := rm.losses_1hr.filter (fun tl => now - 60 < tl.1),
      losses_24hr := rm.losses_24hr.filter (fun tl => now - 24 * 60 < tl.1) }

/-- Method `update_capital` (src/core/risk_manager.rs lines 281-304),
embedded with the source's statement order: `*current = new_capital` is
executed BEFORE the loss check `new_capital < *current`, so the check
reads the already-updated value. -/
def update_capital (rm : RiskManager) (new_capital : ℚ) (now : ℚ) : RiskManager :=
  let rm1 := { rm with current_capital := new_capital }
  let rm2 :=
    if new_capital > rm1.daily_high then { rm1 with daily_high := new_capital }
    else rm1
  if new_capital < rm2.current_capital then
    let loss := rm2.current_capital - new_capital
    let rm3 := { rm2 with
        losses_15min := rm2.losses_15min ++ [(now, loss)],
        losses_1hr := rm2.losses_1hr ++ [(now, loss)],
        losses_24hr := rm2.losses_24hr ++ [(now, loss)] }
    clean_old_losses rm3 now
  else rm2

/-- The operations through which a `RiskManager`'s state can change:
its public methods plus the internal triggers and the cleaner. -/
inductive Op where
  | update_capital (new_capital : ℚ) (now : ℚ)
  | check_risk_limits (now : ℚ)
  | approve_order (pattern_hash : String) (size : ℚ) (now : ℚ)
  | trigger_emergency_stop
  | trigger_circuit_breaker_15min
  | trigger_circuit_breaker_1hr
  | clean_old_losses (now : ℚ)

/-- State transition of one operation on the `RiskManager`. -/
def step (op : Op) (rm : RiskManager) : RiskManager :=
  match op with
  | .update_capital nc now => update_capital rm nc now
  | .check_risk_limits now => (check_risk_limits rm now).2
  | .approve_order ph size now => (approve_order rm ph size now).2
  | .trigger_emergency_stop => trigger_emergency_stop rm
  | .trigger_circuit_breaker_15min => trigger_circuit_breaker_15min rm
  | .trigger_circuit_breaker_1hr => trigger_circuit_breaker_1hr rm
  | .clean_old_losses now => clean_old_losses rm now

end risk_manager

namespace discovery_engine

/-- Condition record (src/core/discovery_engine.rs lines 22-28). -/
structure Condition where
  metric : String
  operator : String
  value : ℚ
  weight : ℚ
deriving DecidableEq, Repr

/-- Hypothesis record (src/core/discovery_engine.rs lines 13-20). -/
structure Hypothesis where
  hash : String
  entry_conditions : List Condition
  exit_conditions : List Condition
  timeframe : ℕ
  created_at : ℤ
deriving DecidableEq, Repr

/-- TestResult record (src/core/discovery_engine.rs lines 303-310). -/
structure TestResult where
  profitable : Bool
  profit : ℚ
  entry_price : ℚ
  exit_price : ℚ
  duration_seconds : ℕ
deriving DecidableEq, Repr

/-- Pattern record of the discovery module (src/core/discovery_engine.rs
lines 30-42). -/
structure Pattern where
  hash : String
  hypothesis : Hypothesis
  test_count : ℕ
  win_count : ℕ
  total_profit : ℚ
  win_rate : ℚ
  sharpe_ratio : ℚ
  is_active : Bool
  generation : ℕ
  parent_patterns : List String
deriving DecidableEq, Repr

/-- State of a `DiscoveryEngine` (src/core/discovery_engine.rs lines 44-52);
the database pool is an external collaborator and is dropped.  The
`active_patterns` hash map becomes an association list where insertion
prepends. -/
structure DiscoveryEngine where
  hypotheses_per_hour : ℕ
  test_capital : ℚ
  min_tests_required : ℕ
  min_win_rate : ℚ
  active_patterns : List (String × Pattern)
  pattern_queue : List Pattern
deriving DecidableEq, Repr

/-- Constructor `DiscoveryEngine::new` (src/core/discovery_engine.rs lines
55-65), minus the database pool. -/
def DiscoveryEngine.new : DiscoveryEngine where
  hypotheses_per_hour := 50
  test_capital := 5
  min_tests_required := 100
  min_win_rate := 11/20
  active_patterns := []
  pattern_queue := []

/-- Method `calculate_sharpe_ratio` (src/core/discovery_engine.rs lines
204-224).  The square root on `f64` is irrational, so the embedding takes
the square-root function as a parameter `sqrtFn`; every theorem below that
touches this method quantifies over all such functions. -/
def calculate_sharpe_ratio (sqrtFn : ℚ → ℚ) (de : DiscoveryEngine)
    (results : List TestResult) : ℚ :=
  if results.isEmpty then 0
  else
    let returns := results.map (fun r => r.profit / de.test_capital)
    let mean_return := returns.sum / (returns.length : ℚ)
    let variance := (returns.map (fun r => (r - mean_return) ^ 2)).sum / (returns.length : ℚ)
    let std_dev := sqrtFn variance
    if std_dev = 0 then 0
    else (mean_return / std_dev) * sqrtFn 252

/-- Method `validate_pattern` (src/core/discovery_engine.rs lines 227-255):
promotes a hypothesis into `active_patterns` and `pattern_queue` exactly
when it has at least `min_tests_required` results and wins at least
`min_win_rate` of them. -/
def validate_pattern (sqrtFn : ℚ → ℚ) (de : DiscoveryEngine) (h : Hypothesis)
    (results : List TestResult) : DiscoveryEngine :=
  if results.length ≥ de.min_tests_required then
    let wins := (results.filter (fun r => r.profitable)).length
    let win_rate := (wins : ℚ) / (results.length : ℚ)
    if win_rate ≥ de.min_win_rate then
      let sharpe := calculate_sharpe_ratio sqrtFn de results
      let pattern : Pattern :=
        { hash := h.hash
          hypothesis := h
          test_count := results.length
          win_count := wins
          total_profit := (results.map (fun r => r.profit)).sum
          win_rate := win_rate
          sharpe_ratio := sharpe
          is_active := true
          generation := 0
          parent_patterns := [] }
      { de with
          active_patterns := (pattern.hash, pattern) :: de.active_patterns,
          pattern_queue := de.pattern_queue ++ [pattern] }
    else de
  else de

/-- Model of `rand`'s `gen_range(lo..hi)` on integers: the raw draw `r`
reduced into the half-open range (`lo + r % (hi - lo)`), which is total
and always lands in `[lo, hi)` when `lo < hi`. -/
def genRange (lo hi : ℕ) (r : ℕ) : ℕ := lo + r % (hi - lo)

/-- Fractional part of a rational, used to model a uniform `f64` draw. -/
def fracPart (q : ℚ) : ℚ := q - (⌊q⌋ : ℚ)

/-- Model of `rand`'s `gen_range(lo..hi)` on floats: `lo` plus a fraction
in `[0, 1)` of the range width. -/
def genRangeQ (lo hi : ℚ) (r : ℚ) : ℚ := lo + fracPart r * (hi - lo)

/-- Lower-case hexadecimal rendering of a natural number, modelling Rust's
format specifier `{:x}`. -/
def toHexString (n : ℕ) : String := (Nat.toDigits 16 n).asString

/-- The raw random draws consumed by one call to
`generate_random_condition` (src/core/discovery_engine.rs lines 101-123). -/
structure CondDraws where
  pattern_ref : ℕ
  metric_ref : ℕ
  metric_idx : ℕ
  operator_idx : ℕ
  value_draw : ℚ
  weight_draw : ℚ

/-- Method `generate_random_condition` (src/core/discovery_engine.rs lines
101-123), as a deterministic function of its random draws. -/
def generate_random_condition (d : CondDraws) : Condition :=
  let metrics : List String :=
    ["price_delta_1m", "price_delta_5m", "price_delta_15m",
     "volume_ratio_1m", "volume_ratio_5m", "volume_spike",
     "order_book_imbalance", "bid_ask_spread",
     "trade_count_1m", "buy_sell_ratio",
     "price_acceleration", "volume_acceleration",
     "pattern_" ++ toHexString (d.pattern_ref % 2 ^ 32),
     "metric_" ++ toHexString (d.metric_ref % 2 ^ 32)]
  { metric := metrics.getD (genRange 0 metrics.length d.metric_idx) ""
    operator := [">", "<", "==", "crosses_above", "crosses_below"].getD
      (genRange 0 5 d.operator_idx) ""
    value := genRangeQ (-100) 100 d.value_draw
    weight := genRangeQ (1/10) 1 d.weight_draw }

/-- A SHA-256 digest rendered in hexadecimal: exactly 64 hex digits.  The
compression function itself is irrelevant to the claims below, so the
digest function is an abstract parameter producing values of this type. -/
structure Sha256Digest where
  digits : List (Fin 16)
  len_eq : digits.length = 64

/-- The truncation `hash[..16]` applied to the digest on line 93 of
src/core/discovery_engine.rs: the hypothesis id is the first 16 hex
digits of the SHA-256 digest. -/
def hypothesisIdOf (digest : Sha256Digest) : List (Fin 16) :=
  digest.digits.take 16

/-- Hex digits to the string they print as. -/
def hexToString (l : List (Fin 16)) : String :=
  (l.map (fun d => Nat.digitChar d.val)).asString

/-- The raw random draws consumed by one call to `generate_hypothesis`. -/
structure RngDraws where
  hash_entropy : ℕ
  entry_count_draw : ℕ
  exit_count_draw : ℕ
  timeframe_draw : ℕ
  cond_draws : ℕ → CondDraws

/-- Method `generate_hypothesis` (src/core/discovery_engine.rs lines
68-99), as a deterministic function of the SHA-256 hex-digest function
`sha`, the two clock readings, and the random draws. -/
def generate_hypothesis (sha : String → Sha256Digest) (now_nanos : ℤ)
    (now_secs : ℤ) (d : RngDraws) : Hypothesis :=
  let digest := sha (toString now_nanos ++ toString (d.hash_entropy % 2 ^ 64))
  let hash := hexToString (hypothesisIdOf digest)
  let entry_count := genRange 1 6 d.entry_count_draw
  let entry_conditions :=
    (List.range entry_count).map (fun i => generate_random_condition (d.cond_draws i))
  let exit_count := genRange 1 4 d.exit_count_draw
  let exit_conditions :=
    (List.range exit_count).map
      (fun i => generate_random_condition (d.cond_draws (entry_count + i)))
  { hash := hash
    entry_conditions := entry_conditions
    exit_conditions := exit_conditions
    timeframe := genRange 1 1440 d.timeframe_draw
    created_at := now_secs }

/-- The set of hash strings `generate_hypothesis` can ever produce, over
every digest function, clock reading and sequence of random draws. -/
def hypothesis_hash_values : Set String :=
  {s | ∃ sha now_nanos now_secs d, (generate_hypothesis sha now_nanos now_secs d).hash = s}

end discovery_engine

namespace risk_manager

/-- The loss-recording branch of `update_capital` is dead: the guard reads
the already-assigned `current_capital`, so the whole method reduces to the
two capital-field updates. -/
lemma update_capital_eq (rm : RiskManager) (nc now : ℚ) :
    update_capital rm nc now =
      { rm with current_capital := nc, daily_high := max rm.daily_high nc } := by
  rcases le_or_lt nc rm.daily_high with h | h
  · simp [update_capital, not_lt.mpr h, max_eq_left h]
  · simp [update_capital, h, max_eq_right h.le]

/-- Neither breaker flag nor the emergency flag is ever cleared by
`check_risk_limits`; each can only move from `false` to `true`. -/
lemma check_risk_limits_flag_mono (rm : RiskManager) (now : ℚ) :
    (rm.emergency_stop = true → (check_risk_limits rm now).2.emergency_stop = true) ∧
    (rm.circuit_breaker_15min = true →
      (check_risk_limits rm now).2.circuit_breaker_15min = true) ∧
    (rm.circuit_breaker_1hr = true →
      (check_risk_limits rm now).2.circuit_breaker_1hr = true) := by
  unfold check_risk_limits
  split_ifs <;>
    simp_all [trigger_emergency_stop, trigger_circuit_breaker_15min,
      trigger_circuit_breaker_1hr]

/-- If `check_risk_limits` passes, it changes nothing. -/
lemma check_risk_limits_true_id (rm : RiskManager) (now : ℚ)
    (h : (check_risk_limits rm now).1 = true) :
    (check_risk_limits rm now).2 = rm := by
  unfold check_risk_limits at h ⊢
  split_ifs at h ⊢
  simp_all

/-- The state returned by `approve_order` is the one returned by the
embedded `check_risk_limits` call, or the input state unchanged. -/
lemma approve_order_snd (rm : RiskManager) (ph : String) (size now : ℚ) :
    (approve_order rm ph size now).2 = rm ∨
    (approve_order rm ph size now).2 = (check_risk_limits rm now).2 := by
  simp only [approve_order]
  split_ifs <;> simp

/-- No operation of the risk manager ever clears a breaker flag or the
emergency flag: each flag can only move from `false` to `true`. -/
lemma step_flag_mono (op : Op) (rm : RiskManager) :
    (rm.emergency_stop = true → (step op rm).emergency_stop = true) ∧
    (rm.circuit_breaker_15min = true → (step op rm).circuit_breaker_15min = true) ∧
    (rm.circuit_breaker_1hr = true → (step op rm).circuit_breaker_1hr = true) := by
  cases op with
  | update_capital nc now => simp [step, update_capital_eq]
  | check_risk_limits now => exact check_risk_limits_flag_mono rm now
  | approve_order ph size now =>
      rcases approve_order_snd rm ph size now with h | h
      · simp [step, h]
      · simp only [step, h]
        exact check_risk_limits_flag_mono rm now
  | trigger_emergency_stop => simp [step, trigger_emergency_stop]
  | trigger_circuit_breaker_15min => simp [step, trigger_circuit_breaker_15min]
  | trigger_circuit_breaker_1hr => simp [step, trigger_circuit_breaker_1hr]
  | clean_old_losses now => simp [step, clean_old_losses]

/-- C1: `update_capital` does set `current_capital` and raise `daily_high`,
but its loss-recording branch is dead code: the guard `new_capital <
*current` runs after `*current = new_capital`, so no loss entry is ever
appended to any of the three sliding windows (and hence no purge runs).
In particular dropping capital from 100 to 70 records nothing. -/
theorem update_capital_never_records_losses (rm : RiskManager)
    (new_capital now : ℚ) :
    (update_capital rm new_capital now).current_capital = new_capital ∧
    (update_capital rm new_capital now).daily_high = max rm.daily_high new_capital ∧
    (update_capital rm new_capital now).losses_15min = rm.losses_15min ∧
    (update_capital rm new_capital now).losses_1hr = rm.losses_1hr ∧
    (update_capital rm new_capital now).losses_24hr = rm.losses_24hr ∧
    (update_capital (RiskManager.new 100) 70 0).losses_15min = [] := by
  simp [update_capital_eq, RiskManager.new]

/-- C2 counterexample: with `current_capital = 70` and `daily_high = 100`
the drawdown is exactly 0.30, the comparison on line 139 is strict, so
`check_risk_limits` returns `true` and the emergency stop stays OK,
contrary to the claim that it returns `false` and halts. -/
theorem check_risk_limits_exact_threshold_cex :
    (check_risk_limits { RiskManager.new 100 with current_capital := 70 } 0).1 = true ∧
    (check_risk_limits
        { RiskManager.new 100 with current_capital := 70 } 0).2.emergency_stop = false := by
  norm_num [check_risk_limits, RiskManager.new, drawdown, calculate_period_loss,
    period_losses_sum, Duration.minutes, Duration.hours]

/-- C2 amended: at drawdown exactly 0.30 (capital 70 of high 100, clean
windows, no flags set) `check_risk_limits` returns `true` and changes
nothing; the emergency stop fires — returning `false`, transitioning
OK→HALTED, and reporting every open position as closed — only when the
drawdown strictly exceeds 0.30. -/
theorem check_risk_limits_drawdown_strict_trip (rm : RiskManager) (now : ℚ)
    (hes : rm.emergency_stop = false) (h15 : rm.circuit_breaker_15min = false)
    (h1h : rm.circuit_breaker_1hr = false)
    (hdd : rm.max_daily_drawdown_pct = 3/10) :
    (rm.current_capital = 70 → rm.daily_high = 100 → rm.losses_15min = [] →
      rm.losses_1hr = [] → check_risk_limits rm now = (true, rm)) ∧
    (drawdown rm > 3/10 →
      (check_risk_limits rm now).1 = false ∧
      (check_risk_limits rm now).2.emergency_stop = true ∧
      close_all_positions (check_risk_limits rm now).2 =
        rm.open_positions.map (fun kv => (kv.1, kv.2.size))) := by
  constructor
  · intro hc hh hl15 hl1h
    norm_num [check_risk_limits, drawdown, calculate_period_loss, period_losses_sum,
      Duration.minutes, Duration.hours, hes, h15, h1h, hdd, hc, hh, hl15, hl1h]
  · intro hd
    norm_num [check_risk_limits, hes, h15, h1h, hdd, hd, trigger_emergency_stop,
      close_all_positions]

/-- Witness for the amended C2 theorem at capital 70 (no trip) and
capital 69 (trip). -/
theorem check_risk_limits_drawdown_strict_trip_witness :
    check_risk_limits { RiskManager.new 100 with current_capital := 70 } 0 =
      (true, { RiskManager.new 100 with current_capital := 70 }) ∧
    (check_risk_limits { RiskManager.new 100 with current_capital := 69 } 0).1 = false ∧
    (check_risk_limits
        { RiskManager.new 100 with current_capital := 69 } 0).2.emergency_stop = true := by
  refine ⟨?_, ?_, ?_⟩
  · exact (check_risk_limits_drawdown_strict_trip _ 0 rfl rfl rfl rfl).1 rfl rfl rfl rfl
  · exact ((check_risk_limits_drawdown_strict_trip _ 0 rfl rfl rfl rfl).2
      (by norm_num [drawdown, RiskManager.new])).1
  · exact ((check_risk_limits_drawdown_strict_trip _ 0 rfl rfl rfl rfl).2
      (by norm_num [drawdown, RiskManager.new])).2.1

/-- C3: the trigger methods set the 15-minute and 1-hour breakers to
TRIPPED, but the advertised cooldown auto-reset does not exist: the
spawned cooldown threads sleep and then do nothing, and no operation of
the risk manager ever returns a breaker to OK. -/
theorem circuit_breakers_never_auto_reset (op : Op) (rm : RiskManager) :
    ((step Op.trigger_circuit_breaker_15min rm).circuit_breaker_15min = true) ∧
    ((step Op.trigger_circuit_breaker_1hr rm).circuit_breaker_1hr = true) ∧
    (rm.circuit_breaker_15min = true → (step op rm).circuit_breaker_15min = true) ∧
    (rm.circuit_breaker_1hr = true → (step op rm).circuit_breaker_1hr = true) :=
  ⟨by simp [step, trigger_circuit_breaker_15min],
   by simp [step, trigger_circuit_breaker_1hr],
   fun h => (step_flag_mono op rm).2.1 h,
   fun h => (step_flag_mono op rm).2.2 h⟩

/-- Witness for the C3 theorem: trip both breakers on a fresh manager and
observe that a later operation leaves them tripped. -/
theorem circuit_breakers_never_auto_reset_witness :
    (step Op.trigger_circuit_breaker_15min (RiskManager.new 100)).circuit_breaker_15min
      = true ∧
    (step (Op.clean_old_losses 0)
        { RiskManager.new 100 with circuit_breaker_15min := true, circuit_breaker_1hr := true }).circuit_breaker_15min = true ∧
    (step (Op.clean_old_losses 0)
        { RiskManager.new 100 with circuit_breaker_15min := true, circuit_breaker_1hr := true }).circuit_breaker_1hr = true :=
  ⟨(circuit_breakers_never_auto_reset (Op.clean_old_losses 0) (RiskManager.new 100)).1,
   (circuit_breakers_never_auto_reset (Op.clean_old_losses 0)
     { RiskManager.new 100 with circuit_breaker_15min := true, circuit_breaker_1hr := true }).2.2.1 rfl,
   (circuit_breakers_never_auto_reset (Op.clean_old_losses 0)
     { RiskManager.new 100 with circuit_breaker_15min := true, circuit_breaker_1hr := true }).2.2.2 rfl⟩

/-- C4: whenever the emergency stop is set, `approve_order` denies every
order, and no operation of the risk manager ever clears the flag — there
is no reset path at all, so only external/manual action could re-arm it. -/
theorem emergency_stop_blocks_orders_and_persists (op : Op) (rm : RiskManager)
    (pattern_hash : String) (size now : ℚ) :
    (rm.emergency_stop = true → (approve_order rm pattern_hash size now).1 = false) ∧
    (rm.emergency_stop = true → (step op rm).emergency_stop = true) := by
  constructor
  · intro h
    simp [approve_order, h]
  · exact fun h => (step_flag_mono op rm).1 h

/-- Witness for the C4 theorem on a halted manager. -/
theorem emergency_stop_blocks_orders_and_persists_witness :
    (approve_order { RiskManager.new 100 with emergency_stop := true } "p" 1 0).1
      = false ∧
    (step (Op.update_capital 50 0)
        { RiskManager.new 100 with emergency_stop := true }).emergency_stop = true :=
  ⟨(emergency_stop_blocks_orders_and_persists (Op.update_capital 50 0)
      { RiskManager.new 100 with emergency_stop := true } "p" 1 0).1 rfl,
   (emergency_stop_blocks_orders_and_persists (Op.update_capital 50 0)
      { RiskManager.new 100 with emergency_stop := true } "p" 1 0).2 rfl⟩

/-- C5 counterexample: the claimed bound "the result never exceeds
`max_position_size_pct * available_capital` for all inputs" fails for a
negative `available_capital`: a sub-threshold pattern yields size 0,
which exceeds the (negative) bound 0.25 * (-100) = -25. -/
theorem position_size_bound_fails_for_negative_capital :
    calculate_position_size (RiskManager.new 200)
        { hash := "p", win_rate := 1/2, avg_win_amount := 10,
          avg_loss_amount := 10, sharpe_ratio := 0 } (-100)
      > (RiskManager.new 200).max_position_size_pct * (-100) := by
  norm_num [calculate_position_size, RiskManager.new]

/-- C5 amended: with the default parameters, `calculate_position_size`
returns exactly 0 below the 0.55 win-rate floor, on a zero average win or
loss, on a negative raw Kelly fraction, and whenever the computed size
would fall under the $5 minimum; the result is never negative, and the
`0.25 * available_capital` cap holds whenever `available_capital` is
nonnegative (for all inputs it would fail, as the counterexample shows). -/
theorem calculate_position_size_kelly_properties (rm : RiskManager)
    (pattern : Pattern) (available_capital : ℚ)
    (hk : rm.kelly_fraction = 1/4) (hp : rm.max_position_size_pct = 1/4)
    (hm : rm.min_win_rate = 11/20) :
    (pattern.win_rate < 11/20 →
      calculate_position_size rm pattern available_capital = 0) ∧
    (pattern.avg_win_amount = 0 →
      calculate_position_size rm pattern available_capital = 0) ∧
    (pattern.avg_loss_amount = 0 →
      calculate_position_size rm pattern available_capital = 0) ∧
    (kelly_pct_of pattern < 0 →
      calculate_position_size rm pattern available_capital = 0) ∧
    (0 ≤ calculate_position_size rm pattern available_capital) ∧
    (calculate_position_size rm pattern available_capital = 0 ∨
      5 ≤ calculate_position_size rm pattern available_capital) ∧
    (0 ≤ available_capital →
      calculate_position_size rm pattern available_capital ≤
        1/4 * available_capital) := by
  simp only [calculate_position_size, kelly_pct_of, hk, hp, hm]
  split_ifs with h1 h2 h3
  · exact ⟨fun _ => rfl, fun _ => rfl, fun _ => rfl, fun _ => rfl, le_refl 0,
      Or.inl rfl, fun hc => by positivity⟩
  · exact ⟨fun _ => rfl, fun _ => rfl, fun _ => rfl, fun _ => rfl, le_refl 0,
      Or.inl rfl, fun hc => by positivity⟩
  · exact ⟨fun _ => rfl, fun _ => rfl, fun _ => rfl, fun _ => rfl, le_refl 0,
      Or.inl rfl, fun hc => by positivity⟩
  · have h5 := not_lt.mp h3
    refine ⟨fun ha => absurd ha h1, fun hb => absurd (Or.inr hb) h2,
      fun hc => absurd (Or.inl (by rw [hc, abs_zero])) h2, fun hkelly => ?_,
      le_trans (by norm_num) h5, Or.inr h5,
      fun _ => (min_le_right _ _).trans_eq (mul_comm _ _)⟩
    have hsafe : (pattern.win_rate * (pattern.avg_win_amount / |pattern.avg_loss_amount|) -
        (1 - pattern.win_rate)) / (pattern.avg_win_amount / |pattern.avg_loss_amount|)
          * (1/4) < 0 :=
      mul_neg_of_neg_of_pos hkelly (by norm_num)
    rw [max_eq_right hsafe.le] at h3
    exact absurd (lt_of_le_of_lt ((min_le_left _ _).trans_eq (mul_zero _))
      (by norm_num)) h3

/-- Witness for the amended C5 theorem: a strong pattern on $200 of
capital is sized at $10, inside all the bounds. -/
theorem calculate_position_size_kelly_properties_witness :
    (0 ≤ calculate_position_size (RiskManager.new 200)
        { hash := "p", win_rate := 3/5, avg_win_amount := 10,
          avg_loss_amount := 10, sharpe_ratio := 0 } 200) ∧
    calculate_position_size (RiskManager.new 200)
        { hash := "p", win_rate := 3/5, avg_win_amount := 10,
          avg_loss_amount := 10, sharpe_ratio := 0 } 200 ≤ 1/4 * 200 :=
  ⟨(calculate_position_size_kelly_properties (RiskManager.new 200)
      { hash := "p", win_rate := 3/5, avg_win_amount := 10,
        avg_loss_amount := 10, sharpe_ratio := 0 } 200 rfl rfl rfl).2.2.2.2.1,
   (calculate_position_size_kelly_properties (RiskManager.new 200)
      { hash := "p", win_rate := 3/5, avg_win_amount := 10,
        avg_loss_amount := 10, sharpe_ratio := 0 } 200 rfl rfl rfl).2.2.2.2.2.2
     (by norm_num)⟩

/-- C6: `approve_order` can return true only when `check_risk_limits`
passes, fewer than 10 positions are open for the pattern, the portfolio
correlation is at most 0.7, and the size is at most half of current
capital; and with capital 100 a proposed size of 60 is denied even though
every other gate passes. -/
theorem approve_order_requires_all_gates :
    (∀ (rm : RiskManager) (pid : String) (size now : ℚ),
      rm.max_concurrent_positions = 10 →
      (approve_order rm pid size now).1 = true →
        (check_risk_limits rm now).1 = true ∧
        (rm.open_positions.filter (fun kv => kv.2.pattern_hash == pid)).length < 10 ∧
        calculate_portfolio_correlation rm pid ≤ 7/10 ∧
        size ≤ rm.current_capital * (1/2)) ∧
    (approve_order (RiskManager.new 100) "p" 60 0).1 = false := by
  constructor
  · intro rm pid size now hmc happ
    simp only [approve_order] at happ
    split_ifs at happ with h1 h2 h3 h4 h5
    have hres : (check_risk_limits rm now).1 = true := by
      revert h2
      cases (check_risk_limits rm now).1 <;> simp
    have hid := check_risk_limits_true_id rm now hres
    rw [hid] at h3 h4 h5
    rw [hmc] at h3
    exact ⟨hres, not_le.mp h3, not_lt.mp h4, not_lt.mp h5⟩
  · norm_num [approve_order, check_risk_limits, RiskManager.new, drawdown,
      calculate_period_loss, period_losses_sum, calculate_portfolio_correlation,
      Duration.minutes, Duration.hours]

/-- Witness for the C6 theorem: on a fresh manager with capital 100, a
size-50 order for a fresh pattern is approved, so all four necessary
conditions hold there. -/
theorem approve_order_requires_all_gates_witness :
    (check_risk_limits (RiskManager.new 100) 0).1 = true ∧
    ((RiskManager.new 100).open_positions.filter
        (fun kv => kv.2.pattern_hash == "p")).length < 10 ∧
    calculate_portfolio_correlation (RiskManager.new 100) "p" ≤ 7/10 ∧
    (50:ℚ) ≤ (RiskManager.new 100).current_capital * (1/2) :=
  approve_order_requires_all_gates.1 (RiskManager.new 100) "p" 50 0 rfl
    (by norm_num [approve_order, check_risk_limits, RiskManager.new, drawdown,
      calculate_period_loss, period_losses_sum, calculate_portfolio_correlation,
      Duration.minutes, Duration.hours])

/-- C10: `check_risk_limits` divides by `daily_high` and
`calculate_period_loss` divides by `current_capital`, neither guarded
against zero.  When both are positive the divisors are nonzero and each
quotient genuinely inverts its divisor; when `daily_high` is zero and
capital is not, no rational satisfies the defining equation of the
drawdown, i.e. the ratio is not a well-defined number. -/
theorem division_preconditions_for_risk_checks :
    (∀ (rm : RiskManager) (p : Duration) (now : ℚ),
      0 < rm.daily_high → 0 < rm.current_capital →
      rm.daily_high ≠ 0 ∧ rm.current_capital ≠ 0 ∧
      drawdown rm * rm.daily_high = rm.daily_high - rm.current_capital ∧
      calculate_period_loss rm p now * rm.current_capital =
        period_losses_sum rm p now) ∧
    (∀ rm : RiskManager, rm.daily_high = 0 → rm.current_capital ≠ 0 →
      ¬ ∃ q : ℚ, q * rm.daily_high = rm.daily_high - rm.current_capital) := by
  constructor
  · intro rm p now hdh hc
    refine ⟨ne_of_gt hdh, ne_of_gt hc, ?_, ?_⟩
    · rw [drawdown, div_mul_cancel₀ _ (ne_of_gt hdh)]
    · rw [calculate_period_loss, div_mul_cancel₀ _ (ne_of_gt hc)]
  · rintro rm h0 hc ⟨q, hq⟩
    rw [h0] at hq
    simp at hq
    exact hc (by linarith)

/-- Witness for the C10 theorem: a fresh manager with capital 100 for the
positive case, and a zero high-water mark with capital 50 for the
ill-defined case. -/
theorem division_preconditions_for_risk_checks_witness :
    ((RiskManager.new 100).daily_high ≠ 0 ∧
      (RiskManager.new 100).current_capital ≠ 0 ∧
      drawdown (RiskManager.new 100) * (RiskManager.new 100).daily_high =
        (RiskManager.new 100).daily_high - (RiskManager.new 100).current_capital ∧
      calculate_period_loss (RiskManager.new 100) (Duration.minutes 15) 0 *
          (RiskManager.new 100).current_capital =
        period_losses_sum (RiskManager.new 100) (Duration.minutes 15) 0) ∧
    ¬ ∃ q : ℚ, q * ({ RiskManager.new 50 with daily_high := 0 } : RiskManager).daily_high =
        ({ RiskManager.new 50 with daily_high := 0 } : RiskManager).daily_high -
          ({ RiskManager.new 50 with daily_high := 0 } : RiskManager).current_capital :=
  ⟨division_preconditions_for_risk_checks.1 (RiskManager.new 100)
      (Duration.minutes 15) 0 (by norm_num [RiskManager.new])
      (by norm_num [RiskManager.new]),
   division_preconditions_for_risk_checks.2
      { RiskManager.new 50 with daily_high := 0 } rfl
      (by norm_num [RiskManager.new])⟩

end risk_manager

namespace discovery_engine

/-- The hypothesis id always has exactly 16 hex digits. -/
lemma hypothesisIdOf_length (digest : Sha256Digest) :
    (hypothesisIdOf digest).length = 16 := by
  simp [hypothesisIdOf, digest.len_eq]

/-- Rendering hex digits as a string preserves the length. -/
lemma hexToString_length (l : List (Fin 16)) :
    (hexToString l).length = l.length := by
  simp [hexToString, List.asString, String.length]

/-- Encoding of a producible hypothesis id as a function on 16 slots. -/
def idEncode (l : ↥(Set.range hypothesisIdOf)) : Fin 16 → Fin 16 :=
  fun i => (l : List (Fin 16)).getD i 0

/-- Two producible ids with the same 16 digits are equal. -/
lemma idEncode_injective : Function.Injective idEncode := by
  rintro ⟨l1, d1, rfl⟩ ⟨l2, d2, rfl⟩ hf
  have h1 := hypothesisIdOf_length d1
  have h2 := hypothesisIdOf_length d2
  refine Subtype.ext (List.ext_getElem (h1.trans h2.symm) ?_)
  intro i hi1 hi2
  have hfi := congrFun hf ⟨i, h1 ▸ hi1⟩
  simpa [idEncode, List.getElem?_eq_getElem, hi1, hi2] using hfi

/-- Only finitely many hypothesis ids are producible. -/
lemma range_hypothesisIdOf_finite : (Set.range hypothesisIdOf).Finite :=
  Set.finite_coe_iff.mp (Finite.of_injective idEncode idEncode_injective)

/-- At most `16 ^ 16 = 2 ^ 64` hypothesis ids are producible. -/
lemma ncard_range_hypothesisIdOf_le :
    (Set.range hypothesisIdOf).ncard ≤ 2 ^ 64 := by
  have h1 : Nat.card ↥(Set.range hypothesisIdOf) ≤ Nat.card (Fin 16 → Fin 16) :=
    Nat.card_le_card_of_injective idEncode idEncode_injective
  have h2 : Nat.card (Fin 16 → Fin 16) = 16 ^ 16 := by
    simp [Nat.card_eq_fintype_card, Fintype.card_fun]
  rw [← Set.Nat.card_coe_set_eq]
  calc Nat.card ↥(Set.range hypothesisIdOf) ≤ Nat.card (Fin 16 → Fin 16) := h1
    _ = 16 ^ 16 := h2
    _ = 2 ^ 64 := by norm_num
    _ ≤ 2 ^ 64 := le_refl _

/-- Every producible hash string is the rendering of a producible id, and
conversely. -/
lemma hypothesis_hash_values_eq :
    hypothesis_hash_values = hexToString '' (Set.range hypothesisIdOf) := by
  ext s
  constructor
  · rintro ⟨sha, nn, ns, d, rfl⟩
    exact ⟨hypothesisIdOf
      (sha (toString nn ++ toString (d.hash_entropy % 2 ^ 64))), ⟨_, rfl⟩, rfl⟩
  · rintro ⟨l, ⟨dg, rfl⟩, rfl⟩
    exact ⟨fun _ => dg, 0, 0, ⟨0, 0, 0, 0, fun _ => ⟨0, 0, 0, 0, 0, 0⟩⟩, rfl⟩

/-- The set of producible hash strings is at most `2 ^ 64` in size. -/
lemma hypothesis_hash_values_ncard_le : hypothesis_hash_values.ncard ≤ 2 ^ 64 := by
  rw [hypothesis_hash_values_eq]
  exact le_trans (Set.ncard_image_le range_hypothesisIdOf_finite)
    ncard_range_hypothesisIdOf_le

/-- C7: with the default thresholds, `validate_pattern` registers an
active pattern for a hypothesis not yet present exactly when there are at
least 100 results and the profitable fraction is at least 0.55; so with
the win rate held at or above 0.55 the promotion flips from absent to
present exactly at 100 trials. -/
theorem validate_pattern_promotes_iff (sqrtFn : ℚ → ℚ) (de : DiscoveryEngine)
    (h : Hypothesis) (results : List TestResult)
    (hmt : de.min_tests_required = 100) (hmw : de.min_win_rate = 11/20)
    (habs : de.active_patterns.find? (fun kv => kv.1 == h.hash) = none) :
    ((validate_pattern sqrtFn de h results).active_patterns.find?
        (fun kv => kv.1 == h.hash) ≠ none ↔
      100 ≤ results.length ∧
        (11:ℚ)/20 ≤ ((results.filter (fun r => r.profitable)).length : ℚ) /
          (results.length : ℚ)) ∧
    (100 ≤ results.length →
      (11:ℚ)/20 ≤ ((results.filter (fun r => r.profitable)).length : ℚ) /
        (results.length : ℚ) →
      ∃ p : Pattern,
        (validate_pattern sqrtFn de h results).active_patterns.find?
          (fun kv => kv.1 == h.hash) = some (h.hash, p) ∧ p.is_active = true) := by
  by_cases hlen : 100 ≤ results.length
  · by_cases hwr : (11:ℚ)/20 ≤ ((results.filter (fun r => r.profitable)).length : ℚ) /
        (results.length : ℚ)
    · have hv : (validate_pattern sqrtFn de h results).active_patterns =
          (h.hash,
            { hash := h.hash
              hypothesis := h
              test_count := results.length
              win_count := (results.filter (fun r => r.profitable)).length
              total_profit := (results.map (fun r => r.profit)).sum
              win_rate := ((results.filter (fun r => r.profitable)).length : ℚ) /
                (results.length : ℚ)
              sharpe_ratio := calculate_sharpe_ratio sqrtFn de results
              is_active := true
              generation := 0
              parent_patterns := [] }) :: de.active_patterns := by
        simp [validate_pattern, hmt, hmw, hlen, hwr]
      have hfind : (validate_pattern sqrtFn de h results).active_patterns.find?
          (fun kv => kv.1 == h.hash) =
          some (h.hash,
            { hash := h.hash
              hypothesis := h
              test_count := results.length
              win_count := (results.filter (fun r => r.profitable)).length
              total_profit := (results.map (fun r => r.profit)).sum
              win_rate := ((results.filter (fun r => r.profitable)).length : ℚ) /
                (results.length : ℚ)
              sharpe_ratio := calculate_sharpe_ratio sqrtFn de results
              is_active := true
              generation := 0
              parent_patterns := [] }) := by
        rw [hv]
        exact List.find?_cons_of_pos _ (by simp)
      refine ⟨⟨fun _ => ⟨hlen, hwr⟩, fun _ => ?_⟩, fun _ _ => ⟨_, hfind, rfl⟩⟩
      rw [hfind]
      exact Option.some_ne_none _
    · have hv : validate_pattern sqrtFn de h results = de := by
        simp [validate_pattern, hmt, hmw, hwr]
      rw [hv]
      constructor
      · rw [habs]
        simp [hwr]
      · intro _ hw2
        exact absurd hw2 hwr
  · have hv : validate_pattern sqrtFn de h results = de := by
      simp [validate_pattern, hmt, hlen]
    rw [hv]
    constructor
    · rw [habs]
      simp [hlen]
    · intro hl _
      exact absurd hl hlen

/-- Witness for the C7 theorem: 100 uniformly profitable trials of a fresh
hypothesis are promoted. -/
theorem validate_pattern_promotes_iff_witness :
    (validate_pattern (fun _ => 0) DiscoveryEngine.new
        { hash := "h1", entry_conditions := [], exit_conditions := [],
          timeframe := 5, created_at := 0 }
        (List.replicate 100
          { profitable := true, profit := 1, entry_price := 100,
            exit_price := 101, duration_seconds := 60 })).active_patterns.find?
        (fun kv => kv.1 == "h1") ≠ none :=
  (validate_pattern_promotes_iff (fun _ => 0) DiscoveryEngine.new
      { hash := "h1", entry_conditions := [], exit_conditions := [],
        timeframe := 5, created_at := 0 }
      (List.replicate 100
        { profitable := true, profit := 1, entry_price := 100,
          exit_price := 101, duration_seconds := 60 })
      rfl rfl rfl).1.mpr
    ⟨by simp, by norm_num [List.filter_replicate]⟩

/-- C8: every generated hypothesis has 1 to 5 entry conditions, 1 to 3
exit conditions, a timeframe within 1 to 1439 minutes, and a non-empty
id, for every digest function, clock reading and random draw. -/
theorem generate_hypothesis_well_formed (sha : String → Sha256Digest)
    (now_nanos now_secs : ℤ) (d : RngDraws) :
    1 ≤ (generate_hypothesis sha now_nanos now_secs d).entry_conditions.length ∧
    (generate_hypothesis sha now_nanos now_secs d).entry_conditions.length ≤ 5 ∧
    1 ≤ (generate_hypothesis sha now_nanos now_secs d).exit_conditions.length ∧
    (generate_hypothesis sha now_nanos now_secs d).exit_conditions.length ≤ 3 ∧
    1 ≤ (generate_hypothesis sha now_nanos now_secs d).timeframe ∧
    (generate_hypothesis sha now_nanos now_secs d).timeframe ≤ 1439 ∧
    (generate_hypothesis sha now_nanos now_secs d).hash ≠ "" := by
  refine ⟨?_, ?_, ?_, ?_, ?_, ?_, ?_⟩ <;>
    simp only [generate_hypothesis, List.length_map, List.length_range, genRange]
  · omega
  · omega
  · omega
  · omega
  · omega
  · omega
  · intro hcon
    have hlen := congrArg String.length hcon
    rw [hexToString_length, hypothesisIdOf_length] at hlen
    simp at hlen

/-- C9 counterexample: the hypothesis id is the 16-hex-character prefix of
the digest, so across all digest functions, clocks and draws the set of
producible ids has fewer than `2 ^ 128` elements — the id cannot fold in
128 bits of entropy. -/
theorem hypothesis_id_space_below_128_bits :
    hypothesis_hash_values.ncard < 2 ^ 128 :=
  lt_of_le_of_lt hypothesis_hash_values_ncard_le (by norm_num)

/-- C9 amended: the id is exactly 16 hexadecimal characters (the first 64
bits of the SHA-256 digest), so at most `16 ^ 16 = 2 ^ 64` distinct ids
exist; collisions are 64-bit unlikely, not 128-bit unlikely. -/
theorem hypothesis_id_space_at_most_64_bits :
    hypothesis_hash_values.ncard ≤ 2 ^ 64 ∧
    ∀ (sha : String → Sha256Digest) (now_nanos now_secs : ℤ) (d : RngDraws),
      (generate_hypothesis sha now_nanos now_secs d).hash.length = 16 :=
  ⟨hypothesis_hash_values_ncard_le, fun sha nn ns d => by
    simp only [generate_hypothesis]
    rw [hexToString_length, hypothesisIdOf_length]⟩

end discovery_engine
